import Mathlib

/-
  Shallow embedding of the player kinematics, collision resolution and
  sprite animation core of the rust-story repository
  (src/player.rs and src/sprite.rs).

  Game-space coordinates, velocities and accelerations (f64 in the source)
  are modelled as rationals; Millis (a signed integer in the source) as Int;
  frame counters and fps (uint in the source) as Nat.  The directional
  collision-box helpers carry a defensive sign assertion in the source;
  they are modelled as Option-returning functions where the assertion
  failure is None, and update_x / update_y propagate that failure.
-/

namespace RustStory

/-- Motion component of the movement key (src/sprite.rs). -/
inductive Motion
  | Walking
  | Standing
  | Interacting
  | Jumping
  | Falling
deriving DecidableEq, Repr

/-- Facing component of the movement key (src/sprite.rs). -/
inductive Facing
  | West
  | East
deriving DecidableEq, Repr

/-- Looking component of the movement key (src/sprite.rs). -/
inductive Looking
  | Up
  | Down
  | Horizontal
deriving DecidableEq, Repr

/-- Modelled from the spec: the fixed tile-size constant used by the
Tile-to-Game conversion of the unit layer (units.rs is not under src). -/
def tileSize : ℚ := 32

/-- Modelled from the spec: Tile-to-Game conversion, multiplication by the
fixed tile-size constant. -/
def tileToGame (c : ℤ) : ℚ := c * tileSize

/-- Modelled from the spec: axis-aligned box in game-space with x, y
(top-left) and width, height (collisions.rs is not under src). -/
structure Rectangle where
  x : ℚ
  y : ℚ
  width : ℚ
  height : ℚ
deriving DecidableEq, Repr

/-- Modelled from the spec: left accessor of a rectangle. -/
def Rectangle.left (r : Rectangle) : ℚ := r.x

/-- Modelled from the spec: right accessor, right = x + width. -/
def Rectangle.right (r : Rectangle) : ℚ := r.x + r.width

/-- Modelled from the spec: top accessor of a rectangle. -/
def Rectangle.top (r : Rectangle) : ℚ := r.y

/-- Modelled from the spec: bottom accessor, bottom = y + height. -/
def Rectangle.bottom (r : Rectangle) : ℚ := r.y + r.height

-- physics constants of src/player.rs
def FRICTION : ℚ := 0.00049804687
def GRAVITY : ℚ := 0.00078125
def WALKING_ACCEL : ℚ := 0.00083007812
def MAX_VELOCITY_X : ℚ := 0.15859375
def MAX_VELOCITY_Y : ℚ := 0.2998046875
def AIR_ACCELERATION : ℚ := 0.0003125
def JUMP_GRAVITY : ℚ := 0.0003125
def JUMP_SPEED : ℚ := 0.25

/-- The X collision-detection box of src/player.rs. -/
def X_BOX : Rectangle := { x := 6, y := 10, width := 20, height := 12 }

/-- The Y collision-detection box of src/player.rs. -/
def Y_BOX : Rectangle := { x := 10, y := 2, width := 12, height := 30 }

/-- Modelled from the spec: a tile is flagged as a wall or is something
else (empty); map.rs is not under src. -/
inductive TileType
  | Wall
  | Empty
deriving DecidableEq, Repr

/-- A tile as returned by the tile-map collaborator: grid coordinates and
a type tag. -/
structure CollisionTile where
  row : ℤ
  col : ℤ
  tile_type : TileType
deriving DecidableEq, Repr

/-- Modelled from the spec: the tile map is a read-only assignment of a
tile type to every grid cell. -/
def TileMap : Type := ℤ → ℤ → TileType

/-- Integer range [lo, hi] as a list, in increasing order. -/
def intRange (lo hi : ℤ) : List ℤ :=
  (List.range (hi + 1 - lo).toNat).map (fun i : ℕ => lo + (i : ℤ))

/-- Modelled from the spec: get_colliding_tiles returns all tiles the
query rectangle overlaps, each tagged with its type and grid coordinates,
in a deterministic (row-major) order.  Game-to-Tile conversion truncates,
so the covered rows run from the floor of top / tileSize to the floor of
bottom / tileSize, and likewise for the columns. -/
def get_colliding_tiles (m : TileMap) (r : Rectangle) : List CollisionTile :=
  (intRange ⌊r.top / tileSize⌋ ⌊r.bottom / tileSize⌋).flatMap (fun row =>
    (intRange ⌊r.left / tileSize⌋ ⌊r.right / tileSize⌋).map (fun col =>
      { row := row, col := col, tile_type := m row col }))

/-- Result of a collision query resolution (collisions.rs Info). -/
structure Info where
  collided : Bool
  row : ℤ
  col : ℤ
deriving DecidableEq, Repr

/-- The scan loop of Player::get_collision_info: walk the tile sequence in
order and stop at the first tile flagged as a wall. -/
def get_collision_info : List CollisionTile → Info
  | [] => { collided := false, row := 0, col := 0 }
  | t :: ts =>
      if t.tile_type = TileType.Wall then
        { collided := true, row := t.row, col := t.col }
      else
        get_collision_info ts

/-- The physics and movement state of the Player struct of src/player.rs
(the sprite table is omitted: it holds renderables, not physics state). -/
structure Player where
  x : ℚ
  y : ℚ
  movement : Motion × Facing × Looking
  on_ground : Bool
  elapsed_time : ℤ
  velocity_x : ℚ
  velocity_y : ℚ
  accel_x : ℤ
  is_interacting : Bool
  is_jump_active : Bool
deriving DecidableEq, Repr

/-- Player::new of src/player.rs: spawn at (x, y), standing facing east,
airborne, zero velocities, accel_x initialized to 1, no flags set. -/
def Player.new (x y : ℚ) : Player :=
  { x := x
    y := y
    movement := (Motion.Standing, Facing.East, Looking.Horizontal)
    on_ground := false
    elapsed_time := 0
    velocity_x := 0
    velocity_y := 0
    accel_x := 1
    is_interacting := false
    is_jump_active := false }

/-- The rectangle built by Player::left_collision of src/player.rs. -/
def left_rect (p : Player) (delta : ℚ) : Rectangle :=
  { x := p.x + (X_BOX.left + delta)
    y := p.y + X_BOX.top
    width := X_BOX.width / 2 - delta
    height := X_BOX.height }

/-- Player::left_collision: the defensive assertion delta ≤ 0 is modelled
as returning none on violation. -/
def left_collision (p : Player) (delta : ℚ) : Option Rectangle :=
  if delta ≤ 0 then some (left_rect p delta) else none

/-- The rectangle built by Player::right_collision of src/player.rs. -/
def right_rect (p : Player) (delta : ℚ) : Rectangle :=
  { x := p.x + X_BOX.left + X_BOX.width / 2
    y := p.y + X_BOX.top
    width := X_BOX.width / 2 + delta
    height := X_BOX.height }

/-- Player::right_collision: the defensive assertion delta ≥ 0 is modelled
as returning none on violation. -/
def right_collision (p : Player) (delta : ℚ) : Option Rectangle :=
  if 0 ≤ delta then some (right_rect p delta) else none

/-- The rectangle built by Player::top_collision of src/player.rs. -/
def top_rect (p : Player) (delta : ℚ) : Rectangle :=
  { x := p.x + Y_BOX.left
    y := p.y + (Y_BOX.top + delta)
    width := Y_BOX.width
    height := Y_BOX.height / 2 - delta }

/-- Player::top_collision: the defensive assertion delta ≤ 0 is modelled
as returning none on violation. -/
def top_collision (p : Player) (delta : ℚ) : Option Rectangle :=
  if delta ≤ 0 then some (top_rect p delta) else none

/-- The rectangle built by Player::bottom_collision of src/player.rs. -/
def bottom_rect (p : Player) (delta : ℚ) : Rectangle :=
  { x := p.x + Y_BOX.left
    y := p.y + Y_BOX.top + Y_BOX.height / 2
    width := Y_BOX.width
    height := Y_BOX.height / 2 + delta }

/-- Player::bottom_collision: the defensive assertion delta ≥ 0 is
modelled as returning none on violation. -/
def bottom_collision (p : Player) (delta : ℚ) : Option Rectangle :=
  if 0 ≤ delta then some (bottom_rect p delta) else none

/-- The acceleration chosen at the head of Player::update_x: walking or
air acceleration in the direction of the intent, zero on zero intent. -/
def update_x_accel (p : Player) : ℚ :=
  if p.accel_x < 0 then
    (if p.on_ground then -WALKING_ACCEL else -AIR_ACCELERATION)
  else if 0 < p.accel_x then
    (if p.on_ground then WALKING_ACCEL else AIR_ACCELERATION)
  else 0

/-- The velocity-update stage of Player::update_x (lines 147-166):
integrate the chosen acceleration, then clamp to the max horizontal speed
while an intent is active, or apply friction decay on the ground when the
intent is zero. -/
def update_x_velocity (p : Player) : ℚ :=
  let v := p.velocity_x + update_x_accel p * (p.elapsed_time : ℚ)
  if p.accel_x < 0 then
    max v (-MAX_VELOCITY_X)
  else if 0 < p.accel_x then
    min v MAX_VELOCITY_X
  else if p.on_ground then
    (if 0 < v then max 0 (v - FRICTION * (p.elapsed_time : ℚ))
     else min 0 (v + FRICTION * (p.elapsed_time : ℚ)))
  else v

/-- Player::update_x of src/player.rs: velocity stage, then directional
two-pass collision resolution along the x axis. -/
def update_x (p : Player) (m : TileMap) : Option Player :=
  let v := update_x_velocity p
  let p0 : Player := { p with velocity_x := v }
  let delta := v * (p.elapsed_time : ℚ)
  if 0 < delta then
    (right_collision p0 delta).bind (fun r =>
      let info := get_collision_info (get_colliding_tiles m r)
      let p1 : Player :=
        if info.collided then
          { p0 with velocity_x := 0, x := tileToGame info.col - X_BOX.right }
        else
          { p0 with x := p0.x + delta }
      (left_collision p1 0).bind (fun r2 =>
        let info2 := get_collision_info (get_colliding_tiles m r2)
        some (if info2.collided then
                { p1 with x := tileToGame info2.col + X_BOX.right }
              else p1)))
  else
    (left_collision p0 delta).bind (fun r =>
      let info := get_collision_info (get_colliding_tiles m r)
      let p1 : Player :=
        if info.collided then
          { p0 with velocity_x := 0, x := tileToGame info.col + X_BOX.right }
        else
          { p0 with x := p0.x + delta }
      (right_collision p1 0).bind (fun r2 =>
        let info2 := get_collision_info (get_colliding_tiles m r2)
        some (if info2.collided then
                { p1 with x := tileToGame info2.col - X_BOX.right }
              else p1)))

/-- The gravity chosen at the head of Player::update_y: jump gravity while
the jump is held and the player is still ascending, full gravity
otherwise. -/
def update_y_gravity (p : Player) : ℚ :=
  if p.is_jump_active = true ∧ p.velocity_y < 0 then JUMP_GRAVITY else GRAVITY

/-- The velocity-update stage of Player::update_y (lines 209-221):
integrate gravity and clamp to the maximum fall velocity. -/
def update_y_velocity (p : Player) : ℚ :=
  min (p.velocity_y + update_y_gravity p * (p.elapsed_time : ℚ)) MAX_VELOCITY_Y

/-- Player::update_y of src/player.rs: velocity stage, then directional
two-pass collision resolution along the y axis, maintaining on_ground. -/
def update_y (p : Player) (m : TileMap) : Option Player :=
  let v := update_y_velocity p
  let p0 : Player := { p with velocity_y := v }
  let delta := v * (p.elapsed_time : ℚ)
  if 0 < delta then
    (bottom_collision p0 delta).bind (fun r =>
      let info := get_collision_info (get_colliding_tiles m r)
      let p1 : Player :=
        if info.collided then
          { p0 with velocity_y := 0, on_ground := true,
                    y := tileToGame info.row - Y_BOX.bottom }
        else
          { p0 with on_ground := false, y := p0.y + delta }
      (top_collision p1 0).bind (fun r2 =>
        let info2 := get_collision_info (get_colliding_tiles m r2)
        some (if info2.collided then
                { p1 with y := tileToGame info2.row + Y_BOX.height }
              else p1)))
  else
    (top_collision p0 delta).bind (fun r =>
      let info := get_collision_info (get_colliding_tiles m r)
      let p1 : Player :=
        if info.collided then
          { p0 with velocity_y := 0, y := tileToGame info.row + Y_BOX.height }
        else
          { p0 with on_ground := false, y := p0.y + delta }
      (bottom_collision p1 0).bind (fun r2 =>
        let info2 := get_collision_info (get_colliding_tiles m r2)
        some (if info2.collided then
                { p1 with on_ground := true,
                          y := tileToGame info2.row - Y_BOX.bottom }
              else p1)))

/-- Player::current_motion of src/player.rs: derive the Motion component
of the movement key from the physics state, carrying Facing and Looking
over unchanged. -/
def current_motion (p : Player) : Player :=
  let lastFacing := p.movement.2.1
  let lastLooking := p.movement.2.2
  { p with movement :=
      if p.on_ground then
        (if p.is_interacting then
          (Motion.Interacting, lastFacing, lastLooking)
        else if p.accel_x = 0 then
          (Motion.Standing, lastFacing, lastLooking)
        else
          (Motion.Walking, lastFacing, lastLooking))
      else
        (if p.velocity_y < 0 then
          (Motion.Jumping, lastFacing, lastLooking)
        else
          (Motion.Falling, lastFacing, lastLooking)) }

/-- Player::start_jump of src/player.rs: mark the jump held, cancel
interacting, and if on the ground set the vertical velocity to the
negative jump speed. -/
def start_jump (p : Player) : Player :=
  let p0 : Player := { p with is_jump_active := true, is_interacting := false }
  if p0.on_ground then { p0 with velocity_y := -JUMP_SPEED } else p0

/-- The animation state of AnimatedSprite of src/sprite.rs (the texture
handle, coordinates and sheet offset are omitted: they do not feed the
frame-advance logic). -/
structure AnimatedSprite where
  source_rect_x : ℤ
  source_rect_w : ℤ
  current_frame : ℕ
  num_frames : ℕ
  fps : ℕ
  last_update : ℤ
deriving DecidableEq, Repr

/-- AnimatedSprite::new of src/sprite.rs: frame counter and accumulator
start at zero; the source rectangle starts at the configured offset. -/
def mkAnimatedSprite (x0 w : ℤ) (n fps : ℕ) : AnimatedSprite :=
  { source_rect_x := x0
    source_rect_w := w
    current_frame := 0
    num_frames := n
    fps := fps
    last_update := 0 }

/-- AnimatedSprite::update of src/sprite.rs: accumulate elapsed time; once
the accumulator exceeds 1000 / fps milliseconds, reset it and advance the
frame, shifting the source rectangle one frame width right, or wrapping it
back to the first frame when the cycle completes. -/
def AnimatedSprite.update (s : AnimatedSprite) (elapsed : ℤ) : AnimatedSprite :=
  let frameTime : ℤ := ((1000 / s.fps : ℕ) : ℤ)
  let lu := s.last_update + elapsed
  if frameTime < lu then
    let cf := s.current_frame + 1
    if cf < s.num_frames then
      { s with last_update := 0, current_frame := cf,
               source_rect_x := s.source_rect_x + s.source_rect_w }
    else
      { s with last_update := 0, current_frame := 0,
               source_rect_x :=
                 s.source_rect_x - s.source_rect_w * ((s.num_frames - 1 : ℕ) : ℤ) }
  else
    { s with last_update := lu }

/-- Run a sequence of AnimatedSprite updates. -/
def run_updates (s : AnimatedSprite) (ts : List ℤ) : AnimatedSprite :=
  ts.foldl AnimatedSprite.update s

/-- Following the specification words: the motion classification as a pure
function of the (on_ground, interacting, accel_x, velocity_y) tuple, to be
compared against Player::current_motion. -/
def spec_motion_of_state (onGround interacting : Bool) (ax : ℤ) (vy : ℚ) : Motion :=
  if onGround then
    (if interacting then Motion.Interacting
     else if ax = 0 then Motion.Standing
     else Motion.Walking)
  else
    (if vy < 0 then Motion.Jumping else Motion.Falling)

/-- A tile map whose walls are exactly the cells of column c (a vertical
wall face immediately to the right of the player in the scenarios of the
collision-snapping claims). -/
def wallColumn (c : ℤ) : TileMap :=
  fun _ col => if col = c then TileType.Wall else TileType.Empty

/-- A tile map whose walls are exactly the cells of row r (a ceiling or
floor face in the scenarios of the vertical-collision claims). -/
def wallRow (r : ℤ) : TileMap :=
  fun row _ => if row = r then TileType.Wall else TileType.Empty

/-! ## Helper lemmas -/

theorem mem_intRange {lo hi a : ℤ} : a ∈ intRange lo hi ↔ lo ≤ a ∧ a ≤ hi := by
  unfold intRange
  simp only [List.mem_map, List.mem_range]
  constructor
  · rintro ⟨i, hi', rfl⟩
    omega
  · rintro ⟨h1, h2⟩
    exact ⟨(a - lo).toNat, by omega, by omega⟩

theorem mem_get_colliding_tiles {m : TileMap} {r : Rectangle} {t : CollisionTile} :
    t ∈ get_colliding_tiles m r ↔
      (⌊r.top / tileSize⌋ ≤ t.row ∧ t.row ≤ ⌊r.bottom / tileSize⌋ ∧
       ⌊r.left / tileSize⌋ ≤ t.col ∧ t.col ≤ ⌊r.right / tileSize⌋ ∧
       t.tile_type = m t.row t.col) := by
  unfold get_colliding_tiles
  simp only [List.mem_flatMap, List.mem_map, mem_intRange]
  constructor
  · rintro ⟨row, ⟨hr1, hr2⟩, col, ⟨hc1, hc2⟩, rfl⟩
    exact ⟨hr1, hr2, hc1, hc2, rfl⟩
  · rintro ⟨hr1, hr2, hc1, hc2, hty⟩
    refine ⟨t.row, ⟨hr1, hr2⟩, t.col, ⟨hc1, hc2⟩, ?_⟩
    cases t
    simp_all

theorem gci_of_no_wall {l : List CollisionTile}
    (h : ∀ t ∈ l, t.tile_type ≠ TileType.Wall) :
    get_collision_info l = { collided := false, row := 0, col := 0 } := by
  induction l with
  | nil => rfl
  | cons t ts ih =>
      unfold get_collision_info
      rw [if_neg (h t (List.mem_cons_self t ts))]
      exact ih (fun u hu => h u (List.mem_cons_of_mem t hu))

theorem gci_wall_col {l : List CollisionTile} {c : ℤ}
    (hall : ∀ t ∈ l, t.tile_type = TileType.Wall → t.col = c)
    (hex : ∃ t ∈ l, t.tile_type = TileType.Wall) :
    (get_collision_info l).collided = true ∧ (get_collision_info l).col = c := by
  induction l with
  | nil =>
      rcases hex with ⟨t, ht, _⟩
      simp at ht
  | cons t ts ih =>
      by_cases hw : t.tile_type = TileType.Wall
      · unfold get_collision_info
        rw [if_pos hw]
        exact ⟨rfl, hall t (List.mem_cons_self t ts) hw⟩
      · unfold get_collision_info
        rw [if_neg hw]
        refine ih (fun u hu hwu => hall u (List.mem_cons_of_mem t hu) hwu) ?_
        rcases hex with ⟨u, hu, hwu⟩
        rcases List.mem_cons.mp hu with h | h
        · exact absurd (h ▸ hwu) hw
        · exact ⟨u, h, hwu⟩

theorem gci_first_wall {l1 : List CollisionTile} {t : CollisionTile}
    {l2 : List CollisionTile}
    (hpre : ∀ u ∈ l1, u.tile_type ≠ TileType.Wall)
    (hw : t.tile_type = TileType.Wall) :
    get_collision_info (l1 ++ t :: l2) =
      { collided := true, row := t.row, col := t.col } := by
  induction l1 with
  | nil =>
      rw [List.nil_append]
      unfold get_collision_info
      rw [if_pos hw]
  | cons u us ih =>
      rw [List.cons_append]
      unfold get_collision_info
      rw [if_neg (hpre u (List.mem_cons_self u us))]
      exact ih (fun v hv => hpre v (List.mem_cons_of_mem u hv))

theorem update_x_shape (p : Player) (m : TileMap) :
    ∃ p', update_x p m = some p' ∧
      (p'.velocity_x = update_x_velocity p ∨ p'.velocity_x = 0) := by
  by_cases h : 0 < update_x_velocity p * (p.elapsed_time : ℚ)
  · have h0 : (0:ℚ) ≤ update_x_velocity p * (p.elapsed_time : ℚ) := le_of_lt h
    simp only [update_x, right_collision, left_collision, if_pos h, if_pos h0,
      le_refl, if_true, Option.some_bind]
    refine ⟨_, rfl, ?_⟩
    by_cases hc1 : (get_collision_info (get_colliding_tiles m
        (right_rect { p with velocity_x := update_x_velocity p }
          (update_x_velocity p * (p.elapsed_time : ℚ))))).collided
    · simp only [hc1, if_true]
      split <;> simp
    · simp only [hc1, Bool.false_eq_true, if_false]
      split <;> simp
  · have h0 : update_x_velocity p * (p.elapsed_time : ℚ) ≤ 0 := le_of_not_lt h
    simp only [update_x, right_collision, left_collision, if_neg h, if_pos h0,
      le_refl, if_true, Option.some_bind]
    refine ⟨_, rfl, ?_⟩
    by_cases hc1 : (get_collision_info (get_colliding_tiles m
        (left_rect { p with velocity_x := update_x_velocity p }
          (update_x_velocity p * (p.elapsed_time : ℚ))))).collided
    · simp only [hc1, if_true]
      split <;> simp
    · simp only [hc1, Bool.false_eq_true, if_false]
      split <;> simp


theorem update_y_shape (p : Player) (m : TileMap) :
    ∃ p', update_y p m = some p' := by
  by_cases h : 0 < update_y_velocity p * (p.elapsed_time : ℚ)
  · have h0 : (0:ℚ) ≤ update_y_velocity p * (p.elapsed_time : ℚ) := le_of_lt h
    simp only [update_y, bottom_collision, top_collision, if_pos h, if_pos h0,
      le_refl, if_true, Option.some_bind]
    exact ⟨_, rfl⟩
  · have h0 : update_y_velocity p * (p.elapsed_time : ℚ) ≤ 0 := le_of_not_lt h
    simp only [update_y, bottom_collision, top_collision, if_neg h, if_pos h0,
      le_refl, if_true, Option.some_bind]
    exact ⟨_, rfl⟩


/-! ## Claim theorems -/

/-- C5: Player::current_motion is a pure function of the tuple
(on_ground, is_interacting, accel_x, velocity_y): grounded and interacting
gives Interacting; grounded with zero intent gives Standing; grounded with
nonzero intent gives Walking; airborne with negative vertical velocity
gives Jumping; airborne otherwise gives Falling; and the Facing and
Looking components of the movement key are carried over unchanged. -/
theorem current_motion_classifies (p : Player) :
    (current_motion p).movement =
      (spec_motion_of_state p.on_ground p.is_interacting p.accel_x p.velocity_y,
       p.movement.2.1, p.movement.2.2) := by
  unfold current_motion spec_motion_of_state
  by_cases hg : p.on_ground <;> by_cases hi : p.is_interacting <;>
    by_cases ha : p.accel_x = 0 <;> by_cases hv : p.velocity_y < 0 <;>
    simp [hg, hi, ha, hv]

/-- C6: start_jump marks the jump held and cancels interacting; on the
ground it sets velocity_y to exactly the negated jump speed, airborne it
leaves velocity_y alone; and it never touches on_ground. -/
theorem start_jump_spec (p : Player) :
    (start_jump p).is_jump_active = true ∧
    (start_jump p).is_interacting = false ∧
    (start_jump p).velocity_y = (if p.on_ground then -JUMP_SPEED else p.velocity_y) ∧
    (start_jump p).on_ground = p.on_ground := by
  unfold start_jump
  by_cases hg : p.on_ground <;> simp [hg]

/-- C7: the collision-info scan is a first-match policy over the sequence
returned by the tile-map collaborator: with no wall in the sequence the
result is not collided, and with a first wall t (nothing before it is a
wall) the result is collided with the row and column of t, regardless of
later walls. -/
theorem get_collision_info_first_match (tiles : List CollisionTile) :
    ((∀ t ∈ tiles, t.tile_type ≠ TileType.Wall) →
      get_collision_info tiles = { collided := false, row := 0, col := 0 }) ∧
    (∀ (l1 : List CollisionTile) (t : CollisionTile) (l2 : List CollisionTile),
      tiles = l1 ++ t :: l2 →
      (∀ u ∈ l1, u.tile_type ≠ TileType.Wall) →
      t.tile_type = TileType.Wall →
      get_collision_info tiles = { collided := true, row := t.row, col := t.col }) := by
  refine ⟨gci_of_no_wall, ?_⟩
  rintro l1 t l2 rfl hpre hw
  exact gci_first_wall hpre hw

/-- Witness for C7: a no-wall sequence yields no collision, and in a
sequence with two walls the result carries the coordinates of the first
one in scan order. -/
theorem get_collision_info_first_match_witness :
    get_collision_info [{ row := 0, col := 0, tile_type := TileType.Empty }] =
      { collided := false, row := 0, col := 0 } ∧
    get_collision_info
      [{ row := 0, col := 0, tile_type := TileType.Empty },
       { row := 1, col := 2, tile_type := TileType.Wall },
       { row := 3, col := 4, tile_type := TileType.Wall }] =
      { collided := true, row := 1, col := 2 } :=
  ⟨(get_collision_info_first_match _).1 (by decide),
   (get_collision_info_first_match _).2
     [{ row := 0, col := 0, tile_type := TileType.Empty }]
     { row := 1, col := 2, tile_type := TileType.Wall }
     [{ row := 3, col := 4, tile_type := TileType.Wall }]
     rfl (by decide) rfl⟩

/-- C8: for every player state and tile map, update_x and update_y always
pass a delta of the correct sign to the directional collision-box helpers,
so the defensive sign assertions modelled as the None branch are
unreachable and both updates always produce a state. -/
theorem collision_box_assertions_unreachable (p : Player) (m : TileMap) :
    (update_x p m).isSome = true ∧ (update_y p m).isSome = true := by
  obtain ⟨p1, h1, -⟩ := update_x_shape p m
  obtain ⟨p2, h2⟩ := update_y_shape p m
  rw [h1, h2]
  exact ⟨rfl, rfl⟩

/-- C3: with zero horizontal intent, airborne, a non-negative elapsed
time and a vertical velocity not past the cap, the velocity-integration
stage of update_y moves velocity_y monotonically toward the fall-speed
cap and never past it. -/
theorem update_y_velocity_monotone_capped (p : Player)
    (_ha : p.accel_x = 0) (_hg : p.on_ground = false)
    (ht : 0 ≤ p.elapsed_time) (hv : p.velocity_y ≤ MAX_VELOCITY_Y) :
    p.velocity_y ≤ update_y_velocity p ∧ update_y_velocity p ≤ MAX_VELOCITY_Y := by
  have hgrav : 0 ≤ update_y_gravity p := by
    unfold update_y_gravity
    split <;> norm_num [JUMP_GRAVITY, GRAVITY]
  have htq : (0:ℚ) ≤ (p.elapsed_time : ℚ) := by exact_mod_cast ht
  unfold update_y_velocity
  exact ⟨le_min (le_add_of_nonneg_right (mul_nonneg hgrav htq)) hv,
         min_le_right _ _⟩

/-- Witness for C3: a freshly spawned player with intent cleared, at
elapsed time zero, satisfies the hypotheses and the bounds. -/
theorem update_y_velocity_monotone_capped_witness :
    ({ Player.new 0 0 with accel_x := 0 } : Player).accel_x = 0 ∧
    ({ Player.new 0 0 with accel_x := 0 } : Player).on_ground = false ∧
    0 ≤ ({ Player.new 0 0 with accel_x := 0 } : Player).elapsed_time ∧
    ({ Player.new 0 0 with accel_x := 0 } : Player).velocity_y ≤ MAX_VELOCITY_Y ∧
    (({ Player.new 0 0 with accel_x := 0 } : Player).velocity_y ≤
        update_y_velocity { Player.new 0 0 with accel_x := 0 } ∧
      update_y_velocity { Player.new 0 0 with accel_x := 0 } ≤ MAX_VELOCITY_Y) :=
  ⟨rfl, rfl, le_refl 0, by norm_num [Player.new, MAX_VELOCITY_Y],
   update_y_velocity_monotone_capped _ rfl rfl (le_refl 0)
     (by norm_num [Player.new, MAX_VELOCITY_Y])⟩



/-- C9: Player::new initializes accel_x to 1, not 0: a fresh player has a
rightward intent, the velocity stage of its first update produces a
strictly positive horizontal velocity for any positive elapsed time, and
were it grounded the classifier would report Walking, not Standing. -/
theorem player_new_walks_right (x y : ℚ) (t : ℤ) (ht : 0 < t) :
    (Player.new x y).accel_x = 1 ∧
    0 < update_x_velocity { Player.new x y with elapsed_time := t } ∧
    (current_motion { Player.new x y with on_ground := true }).movement.1 =
      Motion.Walking := by
  have htq : (0:ℚ) < (t : ℚ) := by exact_mod_cast ht
  refine ⟨rfl, ?_, ?_⟩
  · unfold update_x_velocity update_x_accel
    norm_num [Player.new]
    constructor
    · have hA : (0:ℚ) < AIR_ACCELERATION := by norm_num [AIR_ACCELERATION]
      positivity
    · norm_num [MAX_VELOCITY_X]
  · simp [current_motion, Player.new]

/-- Witness for C9: elapsed time 1 at spawn point (0, 0). -/
theorem player_new_walks_right_witness :
    (0:ℤ) < 1 ∧
    ((Player.new 0 0).accel_x = 1 ∧
     0 < update_x_velocity { Player.new 0 0 with elapsed_time := 1 } ∧
     (current_motion { Player.new 0 0 with on_ground := true }).movement.1 =
       Motion.Walking) :=
  ⟨by decide, player_new_walks_right 0 0 1 (by decide)⟩

/-- C2: with zero intent, grounded, and a non-negative elapsed time, a
single update_x moves velocity_x toward zero without increasing its
magnitude and without crossing zero to the opposite sign. -/
theorem update_x_friction_no_overshoot (p : Player) (m : TileMap)
    (ha : p.accel_x = 0) (hg : p.on_ground = true) (ht : 0 ≤ p.elapsed_time) :
    ∃ p', update_x p m = some p' ∧
      |p'.velocity_x| ≤ |p.velocity_x| ∧
      (0 ≤ p.velocity_x → 0 ≤ p'.velocity_x) ∧
      (p.velocity_x ≤ 0 → p'.velocity_x ≤ 0) := by
  obtain ⟨p', hs, hv⟩ := update_x_shape p m
  refine ⟨p', hs, ?_⟩
  have htq : (0:ℚ) ≤ (p.elapsed_time : ℚ) := by exact_mod_cast ht
  have hF : (0:ℚ) ≤ FRICTION * (p.elapsed_time : ℚ) :=
    mul_nonneg (by norm_num [FRICTION]) htq
  have hval : update_x_velocity p =
      if 0 < p.velocity_x then
        max 0 (p.velocity_x - FRICTION * (p.elapsed_time : ℚ))
      else
        min 0 (p.velocity_x + FRICTION * (p.elapsed_time : ℚ)) := by
    unfold update_x_velocity update_x_accel
    rw [ha]
    norm_num [hg]
  have hbound : (0 ≤ p.velocity_x →
        0 ≤ update_x_velocity p ∧ update_x_velocity p ≤ p.velocity_x) ∧
      (p.velocity_x ≤ 0 →
        p.velocity_x ≤ update_x_velocity p ∧ update_x_velocity p ≤ 0) := by
    rw [hval]
    constructor
    · intro h0
      by_cases hpos : 0 < p.velocity_x
      · rw [if_pos hpos]
        exact ⟨le_max_left _ _, max_le h0 (by linarith)⟩
      · rw [if_neg hpos]
        have hz : p.velocity_x = 0 := le_antisymm (le_of_not_lt hpos) h0
        rw [hz]
        constructor
        · rw [zero_add]
          exact le_min (le_refl 0) hF
        · rw [zero_add]
          exact min_le_left _ _
    · intro h0
      rw [if_neg (not_lt.mpr h0)]
      exact ⟨le_min h0 (by linarith), min_le_left _ _⟩
  rcases hv with hv | hv <;> rw [hv]
  · rcases le_total 0 p.velocity_x with h0 | h0
    · obtain ⟨hb1, hb2⟩ := hbound.1 h0
      refine ⟨?_, fun _ => hb1, fun hneg => by linarith⟩
      rw [abs_of_nonneg hb1, abs_of_nonneg h0]
      exact hb2
    · obtain ⟨hb1, hb2⟩ := hbound.2 h0
      refine ⟨?_, fun hpos => by linarith, fun _ => hb2⟩
      rw [abs_of_nonpos hb2, abs_of_nonpos h0]
      linarith
  · exact ⟨by simp, fun _ => le_refl 0, fun _ => le_refl 0⟩

/-- Witness for C2: a grounded player with zero intent over an empty map
at elapsed time zero. -/
theorem update_x_friction_no_overshoot_witness :
    ({ Player.new 0 0 with accel_x := 0, on_ground := true } : Player).accel_x = 0 ∧
    ({ Player.new 0 0 with accel_x := 0, on_ground := true } : Player).on_ground = true ∧
    0 ≤ ({ Player.new 0 0 with accel_x := 0, on_ground := true } : Player).elapsed_time ∧
    (∃ p', update_x { Player.new 0 0 with accel_x := 0, on_ground := true }
        (fun _ _ => TileType.Empty) = some p' ∧
      |p'.velocity_x| ≤
        |({ Player.new 0 0 with accel_x := 0, on_ground := true } : Player).velocity_x| ∧
      (0 ≤ ({ Player.new 0 0 with accel_x := 0, on_ground := true } : Player).velocity_x →
        0 ≤ p'.velocity_x) ∧
      (({ Player.new 0 0 with accel_x := 0, on_ground := true } : Player).velocity_x ≤ 0 →
        p'.velocity_x ≤ 0)) :=
  ⟨rfl, rfl, le_refl 0,
   update_x_friction_no_overshoot _ _ rfl rfl (le_refl 0)⟩



/-- Counterexample for C4: with 3 frames at 20 fps the frame interval is
1000 / 20 = 50 ms; the update sequence [50, 50, 50] has cumulative elapsed
time exactly 3 × (1000 / 20) ms, yet the source-rectangle offset does not
return to its original value (an advance requires strictly more than one
frame interval of accumulated time, and the surplus is discarded). -/
theorem animated_sprite_cycle_counterexample :
    (50:ℤ) + 50 + 50 = 3 * ((1000 : ℤ) / 20) ∧
    (run_updates (mkAnimatedSprite 0 32 3 20) [50, 50, 50]).source_rect_x ≠
      (mkAnimatedSprite 0 32 3 20).source_rect_x := by
  decide

/-- C4 as amended: a sequence of N = 3 update calls, each carrying
strictly more than one 1000 / F ms frame interval, advances the frame
three times and returns the sprite, source-rectangle offset included, to
exactly its initial state (cycle closure over a full period of
frame-advances). -/
theorem animated_sprite_full_cycle (x0 w t : ℤ)
    (ht : ((1000 / 20 : ℕ) : ℤ) < t) :
    run_updates (mkAnimatedSprite x0 w 3 20) [t, t, t] =
      mkAnimatedSprite x0 w 3 20 := by
  have s1 : AnimatedSprite.update (mkAnimatedSprite x0 w 3 20) t =
      { source_rect_x := x0 + w, source_rect_w := w, current_frame := 1,
        num_frames := 3, fps := 20, last_update := 0 } := by
    simp only [AnimatedSprite.update, mkAnimatedSprite]
    split_ifs with h1 h2
    · rfl
    · exact absurd (by decide) h2
    · exact absurd (show ((1000 / 20 : ℕ) : ℤ) < 0 + t by omega) h1
  have s2 : AnimatedSprite.update
      { source_rect_x := x0 + w, source_rect_w := w, current_frame := 1,
        num_frames := 3, fps := 20, last_update := 0 } t =
      { source_rect_x := x0 + w + w, source_rect_w := w, current_frame := 2,
        num_frames := 3, fps := 20, last_update := 0 } := by
    simp only [AnimatedSprite.update]
    split_ifs with h1 h2
    · rfl
    · exact absurd (by decide) h2
    · exact absurd (show ((1000 / 20 : ℕ) : ℤ) < 0 + t by omega) h1
  have s3 : AnimatedSprite.update
      { source_rect_x := x0 + w + w, source_rect_w := w, current_frame := 2,
        num_frames := 3, fps := 20, last_update := 0 } t =
      mkAnimatedSprite x0 w 3 20 := by
    simp only [AnimatedSprite.update, mkAnimatedSprite]
    split_ifs with h1 h2
    · exact absurd h2 (by decide)
    · simp only [AnimatedSprite.mk.injEq]
      norm_num
      ring
    · exact absurd (show ((1000 / 20 : ℕ) : ℤ) < 0 + t by omega) h1
  show List.foldl AnimatedSprite.update (mkAnimatedSprite x0 w 3 20) [t, t, t] = _
  rw [List.foldl_cons, s1, List.foldl_cons, s2, List.foldl_cons, s3, List.foldl_nil]

/-- Witness for C4 amended: three updates of 51 ms each close the cycle. -/
theorem animated_sprite_full_cycle_witness :
    ((1000 / 20 : ℕ) : ℤ) < 51 ∧
    run_updates (mkAnimatedSprite 0 32 3 20) [51, 51, 51] =
      mkAnimatedSprite 0 32 3 20 :=
  ⟨by decide, animated_sprite_full_cycle 0 32 51 (by decide)⟩



theorem floor_div_tile_le {a : ℚ} {c : ℤ} (h : a ≤ (c : ℚ) * tileSize) :
    ⌊a / tileSize⌋ ≤ c := by
  have hts : (0:ℚ) < tileSize := by norm_num [tileSize]
  have hle : a / tileSize ≤ (c : ℚ) := by
    rw [div_le_iff hts]
    linarith
  calc ⌊a / tileSize⌋ ≤ ⌊(c:ℚ)⌋ := Int.floor_le_floor hle
    _ = c := Int.floor_intCast c

theorem le_floor_div_tile {a : ℚ} {c : ℤ} (h : (c : ℚ) * tileSize ≤ a) :
    c ≤ ⌊a / tileSize⌋ := by
  have hts : (0:ℚ) < tileSize := by norm_num [tileSize]
  rw [Int.le_floor, le_div_iff hts]
  linarith

theorem floor_div_tile_pred (c : ℤ) {k : ℚ} (h1 : 0 < k) (h2 : k ≤ tileSize) :
    ⌊((c : ℚ) * tileSize - k) / tileSize⌋ = c - 1 := by
  have hts : (0:ℚ) < tileSize := by norm_num [tileSize]
  have he : ((c : ℚ) * tileSize - k) / tileSize = (c : ℚ) + -k / tileSize := by
    field_simp
    ring
  rw [he, Int.floor_int_add]
  have hk : ⌊-k / tileSize⌋ = -1 := by
    rw [Int.floor_eq_iff]
    constructor
    · push_cast
      rw [le_div_iff hts]
      linarith
    · push_cast
      rw [div_lt_iff hts]
      linarith
  rw [hk]
  ring

/-- C1: with a wall column immediately to the right of the player X
collision box and an updated rightward velocity whose one-frame travel
reaches that column, update_x snaps the right edge of the X box exactly
onto the left edge of the wall column (in game-space) and zeroes the
horizontal velocity. -/
theorem update_x_snaps_to_wall (p : Player) (c : ℤ)
    (h1 : 0 < update_x_velocity p * (p.elapsed_time : ℚ))
    (h2 : p.x + X_BOX.right ≤ tileToGame c)
    (h3 : tileToGame c ≤ p.x + X_BOX.right + update_x_velocity p * (p.elapsed_time : ℚ)) :
    ∃ p', update_x p (wallColumn c) = some p' ∧
      p'.x + X_BOX.right = tileToGame c ∧ p'.velocity_x = 0 := by
  have hts : (0:ℚ) < tileSize := by norm_num [tileSize]
  have h2n : p.x + 26 ≤ (c : ℚ) * tileSize := by
    have := h2
    simp only [X_BOX, Rectangle.right, tileToGame] at this
    norm_num at this
    linarith [this]
  have h3n : (c : ℚ) * tileSize ≤
      p.x + 26 + update_x_velocity p * (p.elapsed_time : ℚ) := by
    have := h3
    simp only [X_BOX, Rectangle.right, tileToGame] at this
    norm_num at this
    linarith [this]
  -- the leading right-edge query
  have ht1 : (right_rect { p with velocity_x := update_x_velocity p }
      (update_x_velocity p * (p.elapsed_time : ℚ))).top = p.y + 10 := by
    simp [right_rect, Rectangle.top, X_BOX]
  have ht2 : (right_rect { p with velocity_x := update_x_velocity p }
      (update_x_velocity p * (p.elapsed_time : ℚ))).bottom = p.y + 22 := by
    simp [right_rect, Rectangle.top, Rectangle.bottom, X_BOX]
    ring
  have ht3 : (right_rect { p with velocity_x := update_x_velocity p }
      (update_x_velocity p * (p.elapsed_time : ℚ))).left = p.x + 16 := by
    simp [right_rect, Rectangle.left, X_BOX]
    ring
  have ht4 : (right_rect { p with velocity_x := update_x_velocity p }
      (update_x_velocity p * (p.elapsed_time : ℚ))).right =
      p.x + 26 + update_x_velocity p * (p.elapsed_time : ℚ) := by
    simp [right_rect, Rectangle.left, Rectangle.right, X_BOX]
    ring
  have hinfo : (get_collision_info (get_colliding_tiles (wallColumn c)
        (right_rect { p with velocity_x := update_x_velocity p }
          (update_x_velocity p * (p.elapsed_time : ℚ))))).collided = true ∧
      (get_collision_info (get_colliding_tiles (wallColumn c)
        (right_rect { p with velocity_x := update_x_velocity p }
          (update_x_velocity p * (p.elapsed_time : ℚ))))).col = c := by
    apply gci_wall_col
    · intro t htm htw
      rcases mem_get_colliding_tiles.mp htm with ⟨-, -, -, -, hty⟩
      by_contra hne
      rw [htw] at hty
      simp [wallColumn, hne] at hty
    · refine ⟨⟨⌊(p.y + 10) / tileSize⌋, c, TileType.Wall⟩, ?_, rfl⟩
      apply mem_get_colliding_tiles.mpr
      refine ⟨?_, ?_, ?_, ?_, ?_⟩
      · rw [ht1]
      · rw [ht2]
        exact Int.floor_le_floor ((div_le_div_right hts).mpr (by linarith))
      · rw [ht3]
        exact floor_div_tile_le (by linarith)
      · rw [ht4]
        exact le_floor_div_tile (by linarith)
      · simp [wallColumn]
  -- run the definition
  simp only [update_x, right_collision, left_collision, if_pos h1,
    if_pos (le_of_lt h1), le_refl, if_true, Option.some_bind]
  simp only [hinfo.1, hinfo.2, if_true]
  -- the trailing left-edge query after the snap
  have hl3 : (left_rect { p with velocity_x := 0, x := tileToGame c - X_BOX.right }
      (0 : ℚ)).left = (c:ℚ) * tileSize - 20 := by
    simp [left_rect, Rectangle.left, Rectangle.right, X_BOX, tileToGame]
    ring
  have hl4 : (left_rect { p with velocity_x := 0, x := tileToGame c - X_BOX.right }
      (0 : ℚ)).right = (c:ℚ) * tileSize - 10 := by
    simp [left_rect, Rectangle.left, Rectangle.right, X_BOX, tileToGame]
    ring
  have hinfo2 : get_collision_info (get_colliding_tiles (wallColumn c)
      (left_rect { p with velocity_x := 0, x := tileToGame c - X_BOX.right } (0 : ℚ))) =
      { collided := false, row := 0, col := 0 } := by
    apply gci_of_no_wall
    intro t htm
    rcases mem_get_colliding_tiles.mp htm with ⟨-, -, hcl, hcu, hty⟩
    rw [hl3, floor_div_tile_pred c (by norm_num) (by norm_num [tileSize])] at hcl
    rw [hl4, floor_div_tile_pred c (by norm_num) (by norm_num [tileSize])] at hcu
    rw [hty]
    simp [wallColumn, show t.col ≠ c by omega]
  simp only [hinfo2]
  refine ⟨_, rfl, ?_, rfl⟩
  show tileToGame c - X_BOX.right + X_BOX.right = tileToGame c
  ring



/-- Witness for C1: a player at x = 5 with unit rightward velocity and
7 ms of elapsed time reaches the wall column at column 1 and is snapped
onto its left edge. -/
theorem update_x_snaps_to_wall_witness :
    (0 < update_x_velocity
        { Player.new 5 0 with accel_x := 0, velocity_x := 1, elapsed_time := 7 } *
        (({ Player.new 5 0 with accel_x := 0, velocity_x := 1, elapsed_time := 7 } :
          Player).elapsed_time : ℚ)) ∧
    (({ Player.new 5 0 with accel_x := 0, velocity_x := 1, elapsed_time := 7 } :
        Player).x + X_BOX.right ≤ tileToGame 1) ∧
    (∃ p', update_x
        { Player.new 5 0 with accel_x := 0, velocity_x := 1, elapsed_time := 7 }
        (wallColumn 1) = some p' ∧
      p'.x + X_BOX.right = tileToGame 1 ∧ p'.velocity_x = 0) := by
  have hv : update_x_velocity
      { Player.new 5 0 with accel_x := 0, velocity_x := 1, elapsed_time := 7 } = 1 := by
    norm_num [update_x_velocity, update_x_accel, Player.new]
  have h1 : (0:ℚ) < update_x_velocity
      { Player.new 5 0 with accel_x := 0, velocity_x := 1, elapsed_time := 7 } *
      (({ Player.new 5 0 with accel_x := 0, velocity_x := 1, elapsed_time := 7 } :
        Player).elapsed_time : ℚ) := by
    rw [hv]
    norm_num [Player.new]
  have h2 : ({ Player.new 5 0 with accel_x := 0, velocity_x := 1, elapsed_time := 7 } :
      Player).x + X_BOX.right ≤ tileToGame 1 := by
    norm_num [Player.new, X_BOX, Rectangle.right, tileToGame, tileSize]
  have h3 : tileToGame 1 ≤
      ({ Player.new 5 0 with accel_x := 0, velocity_x := 1, elapsed_time := 7 } :
        Player).x + X_BOX.right + update_x_velocity
        { Player.new 5 0 with accel_x := 0, velocity_x := 1, elapsed_time := 7 } *
        (({ Player.new 5 0 with accel_x := 0, velocity_x := 1, elapsed_time := 7 } :
          Player).elapsed_time : ℚ) := by
    rw [hv]
    norm_num [Player.new, X_BOX, Rectangle.right, tileToGame, tileSize]
  exact ⟨h1, h2, update_x_snaps_to_wall _ 1 h1 h2 h3⟩



/-- The leading top-edge query result of the ascending branch of
Player::update_y, as a function of the pre-update state. -/
def ascend_leading_info (p : Player) (m : TileMap) : Info :=
  get_collision_info (get_colliding_tiles m
    (top_rect p (update_y_velocity p * (p.elapsed_time : ℚ))))

/-- The trailing bottom-edge query result of the ascending branch of
Player::update_y (evaluated at the intermediate y position produced by
the leading check), as a function of the pre-update state. -/
def ascend_trailing_info (p : Player) (m : TileMap) : Info :=
  get_collision_info (get_colliding_tiles m (bottom_rect
    { p with y :=
        if (ascend_leading_info p m).collided then
          tileToGame (ascend_leading_info p m).row + Y_BOX.height
        else
          p.y + update_y_velocity p * (p.elapsed_time : ℚ) } 0))

/-- C10: in the ascending branch of update_y (position delta at most 0), a
top-edge collision zeroes velocity_y and snaps y below the ceiling tile,
and the on_ground flag ends up true exactly when the trailing bottom check
collides, keeps its previous value when the leading top check collides,
and is false otherwise: the leading check clears it only on no collision
and the trailing check can only set it. -/
theorem update_y_ascending_ground_flag (p : Player) (m : TileMap)
    (hd : update_y_velocity p * (p.elapsed_time : ℚ) ≤ 0) :
    ∃ p', update_y p m = some p' ∧
      ((ascend_leading_info p m).collided = true → p'.velocity_y = 0) ∧
      ((ascend_leading_info p m).collided = true →
        (ascend_trailing_info p m).collided = false →
        p'.y = tileToGame (ascend_leading_info p m).row + Y_BOX.height) ∧
      p'.on_ground = ((ascend_trailing_info p m).collided ||
        ((ascend_leading_info p m).collided && p.on_ground)) := by
  have hnl : ¬ 0 < update_y_velocity p * (p.elapsed_time : ℚ) := not_lt.mpr hd
  have halign : get_collision_info (get_colliding_tiles m
      (top_rect { p with velocity_y := update_y_velocity p }
        (update_y_velocity p * (p.elapsed_time : ℚ)))) =
      ascend_leading_info p m := rfl
  simp only [update_y, top_collision, bottom_collision, if_neg hnl, if_pos hd,
    le_refl, if_true, Option.some_bind, halign]
  by_cases hTc : (ascend_leading_info p m).collided = true
  · simp only [hTc, if_true]
    have htr : ascend_trailing_info p m =
        get_collision_info (get_colliding_tiles m (bottom_rect { p with velocity_y := 0, y := tileToGame (ascend_leading_info p m).row + Y_BOX.height } 0)) := by
      unfold ascend_trailing_info
      simp only [hTc, if_true]
      rfl
    rw [show get_collision_info (get_colliding_tiles m (bottom_rect { p with velocity_y := 0, y := tileToGame (ascend_leading_info p m).row + Y_BOX.height } 0)) =
        ascend_trailing_info p m from htr.symm]
    by_cases hBc : (ascend_trailing_info p m).collided = true
    · simp only [hBc, if_true]
      exact ⟨_, rfl, fun _ => rfl, fun _ hB0 => absurd hB0 (by simp), by simp⟩
    · rw [Bool.not_eq_true] at hBc
      simp only [hBc, Bool.false_eq_true, if_false]
      exact ⟨_, rfl, fun _ => rfl, fun _ _ => rfl, by simp⟩
  · rw [Bool.not_eq_true] at hTc
    simp only [hTc, Bool.false_eq_true, if_false]
    have htr : ascend_trailing_info p m =
        get_collision_info (get_colliding_tiles m (bottom_rect { p with velocity_y := update_y_velocity p, on_ground := false, y := p.y + update_y_velocity p * (p.elapsed_time : ℚ) } 0)) := by
      unfold ascend_trailing_info
      simp only [hTc, Bool.false_eq_true, if_false]
      rfl
    rw [show get_collision_info (get_colliding_tiles m (bottom_rect { p with velocity_y := update_y_velocity p, on_ground := false, y := p.y + update_y_velocity p * (p.elapsed_time : ℚ) } 0)) =
        ascend_trailing_info p m from htr.symm]
    by_cases hBc : (ascend_trailing_info p m).collided = true
    · simp only [hBc, if_true]
      exact ⟨_, rfl, fun hT => absurd hT (by simp), fun hT _ => absurd hT (by simp), by simp⟩
    · rw [Bool.not_eq_true] at hBc
      simp only [hBc, Bool.false_eq_true, if_false]
      exact ⟨_, rfl, fun hT => absurd hT (by simp), fun hT _ => absurd hT (by simp), by simp⟩



/-- Witness for C10: a player spawned at y = 20 moving through the
ascending branch (elapsed time zero gives a zero position delta) over a
map whose row 0 is a ceiling of walls. -/
theorem update_y_ascending_ground_flag_witness :
    update_y_velocity (Player.new 0 20) * ((Player.new 0 20).elapsed_time : ℚ) ≤ 0 ∧
    (∃ p', update_y (Player.new 0 20) (wallRow 0) = some p' ∧
      ((ascend_leading_info (Player.new 0 20) (wallRow 0)).collided = true →
        p'.velocity_y = 0) ∧
      ((ascend_leading_info (Player.new 0 20) (wallRow 0)).collided = true →
        (ascend_trailing_info (Player.new 0 20) (wallRow 0)).collided = false →
        p'.y = tileToGame (ascend_leading_info (Player.new 0 20) (wallRow 0)).row +
          Y_BOX.height) ∧
      p'.on_ground = ((ascend_trailing_info (Player.new 0 20) (wallRow 0)).collided ||
        ((ascend_leading_info (Player.new 0 20) (wallRow 0)).collided &&
          (Player.new 0 20).on_ground))) := by
  have hd : update_y_velocity (Player.new 0 20) * ((Player.new 0 20).elapsed_time : ℚ) ≤ 0 := by
    simp [Player.new]
  exact ⟨hd, update_y_ascending_ground_flag _ _ hd⟩

end RustStory
